import Mathlib

/-
Verification of the Convexus front-end helpers:
- src/app/hooks/useSponsoredTransactions.tsx (sponsored-transaction sender)
- src/lib/pool-data.ts (pool/analytics data fetcher)

External services (the wallet SDK's sendTransaction, the gas-sponsorship
eligibility call, the GraphQL indexer proxy, the CoinGecko price API and the
chain RPC) are modelled as oracles: each embedded operation takes the
behaviour of its upstream calls as explicit arguments, and returns the value
or thrown error as an Except together with the observable state it produces.
JavaScript numeric results that flow through IEEE-754 arithmetic
(parseFloat and friends) are abstracted: amount scaling is passed in as a
function argument, and API numbers are modelled as rationals.
-/

namespace Convexus

/-- Model of JavaScript String.prototype.padStart(n, c): pads on the left up
to length n and never truncates a longer string. -/
def padStart (s : String) (n : Nat) (c : Char) : String :=
  String.mk (List.replicate (n - s.length) c) ++ s

/-- Model of JavaScript String.prototype.slice(n) for nonnegative n. -/
def jsSlice (s : String) (n : Nat) : String :=
  String.mk (s.toList.drop n)

/-- Fuel-driven hex digit accumulator, mirroring Number/BigInt toString(16):
most significant digit first, lowercase digits. -/
def hexAux : Nat → Nat → List Char → List Char
  | 0, _, ds => ds
  | fuel + 1, n, ds =>
    let d := Nat.digitChar (n % 16)
    if n / 16 = 0 then d :: ds else hexAux fuel (n / 16) (d :: ds)

/-- Model of BigInt.prototype.toString(16): minimal lowercase hex digits,
"0" for zero. n + 1 units of fuel always suffice. -/
def hexString (n : Nat) : String :=
  String.mk (hexAux (n + 1) n [])

/-- Whether the second list is a leading segment of the first. -/
def startsWithList : List Char → List Char → Bool
  | _, [] => true
  | [], _ :: _ => false
  | a :: as, b :: bs => a == b && startsWithList as bs

/-- Whether the second list occurs contiguously inside the first. -/
def containsSub : List Char → List Char → Bool
  | [], pat => pat.isEmpty
  | a :: s, pat => startsWithList (a :: s) pat || containsSub s pat

/-- Model of JavaScript String.prototype.includes: contiguous substring
occurrence. -/
def strIncludes (s pat : String) : Bool :=
  containsSub s.toList pat.toList

/-- Modelled from the spec: TransferParams, the input to one send attempt
(src imports the TokenTransferParams type from lib/smart-wallet-utils, which
is not part of the provided sources). Spec section 3: recipient address,
optional token contract address, amount as a decimal string, optional
decimals defaulting to 18, and a chain identifier. -/
structure TokenTransferParams where
  recipient : String
  tokenAddress : Option String
  amount : String
  decimals : Option Nat
  chainId : Nat
deriving DecidableEq

/-- The hook's status record (useSponsoredTransactions.tsx lines 11-16). -/
structure SponsoredTransactionStatus where
  isLoading : Bool
  isSponsored : Bool
  transactionHash : Option String
  error : Option String
deriving DecidableEq

/-- The initial status (also the value installed by reset). -/
def initialStatus : SponsoredTransactionStatus :=
  { isLoading := false, isSponsored := false, transactionHash := none, error := none }

/-- Parameters handed to the wallet SDK's sendTransaction call. -/
structure TxParams where
  toAddr : String
  data : Option String
  value : Option Nat
  gasLimit : Option Nat
deriving DecidableEq

instance : Inhabited TxParams := ⟨⟨"", none, none, none⟩⟩

/-- JavaScript truthiness of an optional string: undefined and the empty
string are falsy. -/
def jsTruthyStr : Option String → Bool
  | none => false
  | some s => s != ""

/-- Error classification of lines 113: message contains one of the three
fixed substrings. -/
def isSponsorshipError (msg : String) : Bool :=
  strIncludes msg "sponsorship" || strIncludes msg "paymaster" ||
    strIncludes msg "gas too low"

/-- The hook's decimals defaulting, params.decimals || 18: undefined and 0
are falsy, so both yield 18. -/
def effectiveDecimals : Option Nat → Nat
  | some d => if d = 0 then 18 else d
  | none => 18

/-- buildTransferCallData (useSponsoredTransactions.tsx lines 178-189).
tokenAmount stands for the source's
BigInt(parseFloat(amount) * Math.pow(10, decimals)); its IEEE-754 evaluation
is abstracted and the resulting integer is taken as the argument. -/
def buildTransferCallData (recipient : String) (tokenAmount : Nat) : String :=
  "0xa9059cbb" ++ padStart (jsSlice recipient 2) 64 '0' ++
    padStart (hexString tokenAmount) 64 '0'

/-- sendSponsoredTransaction (useSponsoredTransactions.tsx lines 68-165).
scale abstracts BigInt(parseFloat(amount) * Math.pow(10, d)); smartWallet is
the connected wallet address, if any; send1 and send2 are the behaviours of
the first and second sendTransaction invocation (hash on success, derived
error message on throw); prev is the status before the call. Returns the
call's own outcome (thrown error or unit), the final status record, and the
list of transaction parameter objects actually submitted, in order. -/
def sendSponsoredTransaction (scale : String → Nat → Nat)
    (smartWallet : Option String) (params : TokenTransferParams)
    (send1 send2 : Except String String) (prev : SponsoredTransactionStatus) :
    Except String Unit × SponsoredTransactionStatus × List TxParams :=
  match smartWallet with
  | none => (.error "No smart wallet connected", prev, [])
  | some _ =>
    let st0 := { prev with isLoading := true, error := none }
    let st1 := { st0 with isSponsored := true }
    let decimals := effectiveDecimals params.decimals
    let txParams : TxParams :=
      if jsTruthyStr params.tokenAddress then
        { toAddr := params.tokenAddress.getD "",
          data := some (buildTransferCallData params.recipient
            (scale params.amount decimals)),
          value := none, gasLimit := none }
      else
        { toAddr := params.recipient, data := none,
          value := some (scale params.amount 18), gasLimit := none }
    match send1 with
    | .ok hash =>
      (.ok (), { st1 with isLoading := false, transactionHash := some hash },
        [txParams])
    | .error errorMessage =>
      if isSponsorshipError errorMessage then
        let st2 := { st1 with isSponsored := false }
        let decimals2 := effectiveDecimals params.decimals
        let txParams2 : TxParams :=
          if jsTruthyStr params.tokenAddress then
            { toAddr := params.tokenAddress.getD "",
              data := some (buildTransferCallData params.recipient
                (scale params.amount decimals2)),
              value := none, gasLimit := some 100000 }
          else
            { toAddr := params.recipient, data := none,
              value := some (scale params.amount 18), gasLimit := some 21000 }
        match send2 with
        | .ok fallbackHash =>
          (.ok (),
            { st2 with isLoading := false, transactionHash := some fallbackHash },
            [txParams, txParams2])
        | .error fallbackErrorMessage =>
          (.error ("Transaction failed: " ++ fallbackErrorMessage),
            { st2 with isLoading := false, error := some fallbackErrorMessage },
            [txParams, txParams2])
      else
        (.error errorMessage,
          { st1 with isLoading := false, error := some errorMessage },
          [txParams])

/-- checkSponsorship (useSponsoredTransactions.tsx lines 47-66). upstream is
the behaviour of the external isGasSponsorshipAvailable call. -/
def checkSponsorship (smartWallet : Option String)
    (params : TokenTransferParams) (upstream : Except String Bool) :
    Except String Bool :=
  match smartWallet with
  | none => .error "No smart wallet connected"
  | some _ =>
    match upstream with
    | .ok isEligible => .ok isEligible
    | .error _ => .ok false

/-- A fixed transfer-parameter value used by concrete witnesses. -/
def sampleParams : TokenTransferParams :=
  { recipient := "0x1234567890123456789012345678901234567890",
    tokenAddress := none, amount := "1", decimals := none, chainId := 11155111 }

example : isSponsorshipError "paymaster rejected" = true := by decide
example : isSponsorshipError "user rejected" = false := by decide
example : hexString 255 = "ff" := by decide
example : hexString 0 = "0" := by decide
set_option maxRecDepth 4000 in
example : (buildTransferCallData "0x1234567890123456789012345678901234567890" 1).length = 138 := by decide

/-- A token descriptor as assembled into PoolData (pool-data.ts lines 86-95). -/
structure TokenInfo where
  symbol : String
  name : String
  address : String
deriving DecidableEq

/-- A token object of the subgraph JSON; every field may be absent. -/
structure TokenJson where
  id : Option String
  symbol : Option String
  name : Option String
deriving DecidableEq

/-- One poolDayData entry of the subgraph JSON. Numeric strings are modelled
as their parsed rational value; an absent or empty field is none. -/
structure DayJson where
  volumeUSD : Option ℚ
  feesUSD : Option ℚ
deriving DecidableEq

/-- The pool object of the subgraph JSON, restricted to the fields the code
reads. Numeric strings are modelled as their parsed rational value; an
absent or empty field is none (parseFloat(x || "0") then yields 0). -/
structure PoolJson where
  totalValueLockedUSD : Option ℚ
  volumeUSD : Option ℚ
  feesUSD : Option ℚ
  token0 : Option TokenJson
  token1 : Option TokenJson
  poolDayData : List DayJson
deriving DecidableEq

/-- The observable behaviour of the indexer proxy call in
fetchUniswapPoolAnalytics: the fetch itself throwing, a non-ok HTTP status
with its body text, a GraphQL errors array (stringified), a response without
a pool, or a pool object. -/
inductive SubgraphOutcome
  | netError (msg : String)
  | httpError (status : Nat) (body : String)
  | graphqlErrors (errs : String)
  | noPool
  | ok (pool : PoolJson)

/-- JavaScript x || d for an optional string: undefined and "" are falsy. -/
def jsOrStr (o : Option String) (d : String) : String :=
  match o with
  | some s => if s = "" then d else s
  | none => d

/-- The Partial PoolData produced by fetchUniswapPoolAnalytics; the fields
fetchPoolData later reads are all optional at its use site. -/
structure AnalyticsData where
  tvlUSD : Option ℚ
  volumeUSD : Option ℚ
  feesUSD : Option ℚ
  totalLiquidity : Option ℚ
  volume24h : Option ℚ
  fees24h : Option ℚ
  token0 : Option TokenInfo
  token1 : Option TokenInfo
deriving DecidableEq

/-- fetchUniswapPoolAnalytics (pool-data.ts lines 138-254): non-ok HTTP,
GraphQL errors and a missing pool each throw with the corresponding message
(the catch block only logs and re-throws); a pool object is reshaped with
0 / UNKNOWN defaults for absent fields. -/
def fetchUniswapPoolAnalytics : SubgraphOutcome → Except String AnalyticsData
  | .netError m => .error m
  | .httpError status body =>
    .error ("HTTP error! status: " ++ toString status ++ ", body: " ++ body)
  | .graphqlErrors errs => .error ("GraphQL errors: " ++ errs)
  | .noPool => .error "Pool not found in subgraph - check if pool exists on Sepolia"
  | .ok pool =>
    let latestDayData := pool.poolDayData.head?
    .ok { tvlUSD := some (pool.totalValueLockedUSD.getD 0),
          volumeUSD := some (pool.volumeUSD.getD 0),
          feesUSD := some (pool.feesUSD.getD 0),
          totalLiquidity := some (pool.totalValueLockedUSD.getD 0),
          volume24h := some ((latestDayData.bind DayJson.volumeUSD).getD 0),
          fees24h := some ((latestDayData.bind DayJson.feesUSD).getD 0),
          token0 := some
            { symbol := jsOrStr (pool.token0.bind TokenJson.symbol) "UNKNOWN",
              name := jsOrStr (pool.token0.bind TokenJson.name) "Unknown Token",
              address := jsOrStr (pool.token0.bind TokenJson.id) "" },
          token1 := some
            { symbol := jsOrStr (pool.token1.bind TokenJson.symbol) "UNKNOWN",
              name := jsOrStr (pool.token1.bind TokenJson.name) "Unknown Token",
              address := jsOrStr (pool.token1.bind TokenJson.id) "" } }

/-- The observable behaviour of the CoinGecko call in fetchUsdcCopePrice:
the fetch throwing, a non-ok HTTP status, or a JSON body whose cope.usd
field may be absent. -/
inductive CoinGeckoOutcome
  | netError (msg : String)
  | httpError (status : Nat)
  | ok (copeUsd : Option ℚ)

/-- fetchUsdcCopePrice (pool-data.ts lines 259-294): any failure is wrapped
into the Unable-to-fetch message; an absent or zero (falsy) cope.usd counts
as not found; otherwise the returned rate is 1 / copeUsd. -/
def fetchUsdcCopePrice : CoinGeckoOutcome → Except String ℚ
  | .netError m => .error ("Unable to fetch real COPE price: " ++ m)
  | .httpError status =>
    .error ("Unable to fetch real COPE price: CoinGecko API failed: " ++
      toString status)
  | .ok copeUsd =>
    match copeUsd with
    | none => .error "Unable to fetch real COPE price: COPE price not found on CoinGecko"
    | some v =>
      if v = 0 then
        .error "Unable to fetch real COPE price: COPE price not found on CoinGecko"
      else .ok (1 / v)

/-- fetchEthUsdcPrice (pool-data.ts lines 124-133): the oracle is the
ethereum.usd value extracted from the response, or the failure of the fetch
or of the extraction; any failure becomes the fixed connection message. -/
def fetchEthUsdcPrice : Except String ℚ → Except String ℚ
  | .error _ => .error "Unable to fetch real ETH price. Please check your internet connection."
  | .ok v => .ok v

/-- UserBalance (pool-data.ts lines 98-103). -/
structure UserBalance where
  eth : ℚ
  usdc : ℚ
  cope : ℚ
  totalUsd : ℚ
deriving DecidableEq

/-- The observable behaviour of the three balance reads in
fetchUserBalances, plus whether each token address is configured (the
USDC_ADDRESS / COPE_ADDRESS truthiness guards; the addresses come from the
chains config module). Each read's value is the already-converted
Number(formatUnits(...)) result. -/
structure BalanceEnv where
  ethRead : Except String ℚ
  usdcAvailable : Bool
  usdcRead : Except String ℚ
  copeAvailable : Bool
  copeRead : Except String ℚ

/-- A token read guarded by an inner try/catch: unavailable address or a
failed read yields 0. -/
def lenientRead (available : Bool) (r : Except String ℚ) : ℚ :=
  if available then
    match r with
    | .ok v => v
    | .error _ => 0
  else 0

/-- fetchUserBalances (pool-data.ts lines 299-349): the native read is
inside the outer try only, so its failure throws the wallet-connection
message; the two token reads each have their own try/catch defaulting to 0;
totalUsd is returned as 0. -/
def fetchUserBalances (env : BalanceEnv) : Except String UserBalance :=
  match env.ethRead with
  | .error _ => .error "Unable to fetch real user balances. Please check wallet connection."
  | .ok ethAmount =>
    .ok { eth := ethAmount,
          usdc := lenientRead env.usdcAvailable env.usdcRead,
          cope := lenientRead env.copeAvailable env.copeRead,
          totalUsd := 0 }

/-- The APR computation of fetchPoolData (pool-data.ts lines 389-396): the
JavaScript condition fees24h && tvlUSD && tvlUSD > 0 treats an absent or
zero field as falsy. -/
def computeApr (fees24h tvlUSD : Option ℚ) : ℚ :=
  match fees24h, tvlUSD with
  | some f, some t => if f ≠ 0 ∧ t ≠ 0 ∧ 0 < t then f * 365 / t * 100 else 0
  | _, _ => 0

/-- PoolData (pool-data.ts lines 76-96). -/
structure PoolData where
  usdcCopePrice : ℚ
  ethUsdcPrice : ℚ
  totalLiquidity : ℚ
  volume24h : ℚ
  fees24h : ℚ
  apr : ℚ
  tvlUSD : ℚ
  volumeUSD : ℚ
  feesUSD : ℚ
  token0 : TokenInfo
  token1 : TokenInfo
deriving DecidableEq

/-- The external calls fetchPoolData can perform, in program order. -/
inductive ExtCall
  | indexer
  | copePrice
  | ethPrice
  | balances
deriving DecidableEq

/-- fetchPoolData (pool-data.ts lines 354-429): sequentially fetches
analytics, the USDC/COPE rate, the ETH price, and (given a wallet address)
the balances; any error of the first three aborts the whole call wrapped in
the Failed-to-fetch message, while a balance failure only omits the balance
object. Alongside the result, returns the list of external calls performed. -/
def fetchPoolData (sg : SubgraphOutcome) (cg : CoinGeckoOutcome)
    (ethApi : Except String ℚ) (walletAddress : Option String)
    (env : BalanceEnv) :
    Except String (PoolData × Option UserBalance) × List ExtCall :=
  match fetchUniswapPoolAnalytics sg with
  | .error e => (.error ("Failed to fetch real pool data: " ++ e), [.indexer])
  | .ok ua =>
    match fetchUsdcCopePrice cg with
    | .error e =>
      (.error ("Failed to fetch real pool data: " ++ e), [.indexer, .copePrice])
    | .ok usdcCopePrice =>
      match fetchEthUsdcPrice ethApi with
      | .error e =>
        (.error ("Failed to fetch real pool data: " ++ e),
          [.indexer, .copePrice, .ethPrice])
      | .ok ethUsdcPrice =>
        let balancesPart : Option UserBalance × List ExtCall :=
          match walletAddress with
          | none => (none, [.indexer, .copePrice, .ethPrice])
          | some _ =>
            match fetchUserBalances env with
            | .error _ => (none, [.indexer, .copePrice, .ethPrice, .balances])
            | .ok b =>
              (some { eth := b.eth, usdc := b.usdc, cope := b.cope,
                      totalUsd := b.eth * ethUsdcPrice + b.usdc +
                        b.cope * usdcCopePrice },
                [.indexer, .copePrice, .ethPrice, .balances])
        let apr := computeApr ua.fees24h ua.tvlUSD
        let poolData : PoolData :=
          { usdcCopePrice := usdcCopePrice,
            ethUsdcPrice := ethUsdcPrice,
            totalLiquidity := ua.totalLiquidity.getD 0,
            volume24h := ua.volume24h.getD 0,
            fees24h := ua.fees24h.getD 0,
            apr := apr,
            tvlUSD := ua.tvlUSD.getD 0,
            volumeUSD := ua.volumeUSD.getD 0,
            feesUSD := ua.feesUSD.getD 0,
            token0 := ua.token0.getD
              { symbol := "UNKNOWN", name := "Unknown Token", address := "" },
            token1 := ua.token1.getD
              { symbol := "UNKNOWN", name := "Unknown Token", address := "" } }
        (.ok (poolData, balancesPart.1), balancesPart.2)

/-! ### Supporting lemmas -/

theorem length_padStart (s : String) (n : Nat) (c : Char) :
    (padStart s n c).length = max n s.length := by
  unfold padStart
  rw [String.length_append]
  show (List.replicate (n - s.length) c).length + s.length = max n s.length
  rw [List.length_replicate]
  omega

theorem length_jsSlice (s : String) (n : Nat) :
    (jsSlice s n).length = s.length - n := by
  unfold jsSlice
  show (s.toList.drop n).length = _
  rw [List.length_drop]
  rfl

theorem hexAux_length_le (fuel : Nat) : ∀ (n : Nat) (ds : List Char) (k : Nat),
    0 < k → n < 16 ^ k → (hexAux fuel n ds).length ≤ ds.length + k := by
  induction fuel with
  | zero => intro n ds k _ _; simp [hexAux]
  | succ f ih =>
    intro n ds k hk hn
    simp only [hexAux]
    by_cases h : n / 16 = 0
    · simp [h]; omega
    · simp only [h, if_false]
      obtain ⟨k', rfl⟩ : ∃ k', k = k' + 1 := ⟨k - 1, by omega⟩
      rcases Nat.eq_zero_or_pos k' with hk0 | hk'
      · exfalso
        apply h
        apply Nat.div_eq_of_lt
        subst hk0
        simpa using hn
      · have hlt : n / 16 < 16 ^ k' := by
          apply Nat.div_lt_of_lt_mul
          rw [← pow_succ']
          exact hn
        have := ih (n / 16) (Nat.digitChar (n % 16) :: ds) k' hk' hlt
        simp only [List.length_cons] at this
        omega

theorem length_hexString_le (n k : Nat) (hk : 0 < k) (hn : n < 16 ^ k) :
    (hexString n).length ≤ k := by
  unfold hexString
  show (hexAux (n + 1) n []).length ≤ k
  have := hexAux_length_le (n + 1) n [] k hk hn
  simpa using this

/-! ### Claims -/

/-- Claim C10: when no smart wallet with an address is connected,
sendSponsoredTransaction throws the No-smart-wallet error before any state
change: the status record is returned exactly as it was and no send is
attempted. -/
theorem sendSponsoredTransaction_no_wallet (scale : String → Nat → Nat)
    (params : TokenTransferParams) (send1 send2 : Except String String)
    (prev : SponsoredTransactionStatus) :
    sendSponsoredTransaction scale none params send1 send2 prev =
      (.error "No smart wallet connected", prev, []) := rfl

/-- Claim C3 counterexample: with no connected wallet, checkSponsorship
throws the No-smart-wallet error rather than returning a boolean, so the
claim that it never throws for every input is false. -/
theorem checkSponsorship_throws_without_wallet :
    checkSponsorship none sampleParams (.ok true) =
      .error "No smart wallet connected" := rfl

/-- Claim C3 (amended): when a smart wallet with an address is connected,
checkSponsorship returns a boolean for every behaviour of the upstream
eligibility call, and an upstream failure yields false rather than a
propagated error. -/
theorem checkSponsorship_connected_total (w : String)
    (params : TokenTransferParams) (upstream : Except String Bool)
    (e : String) :
    (∃ b, checkSponsorship (some w) params upstream = .ok b) ∧
      checkSponsorship (some w) params (.error e) = .ok false := by
  refine ⟨?_, rfl⟩
  cases upstream with
  | ok b => exact ⟨b, rfl⟩
  | error _ => exact ⟨false, rfl⟩

/-- Claim C5 counterexample: a failing native-asset read does not default
that balance to zero with the token balances still returned; it aborts
fetchUserBalances with the wallet-connection error. -/
theorem fetchUserBalances_native_failure_counterexample :
    fetchUserBalances ⟨.error "rpc down", true, .ok 5, true, .ok 7⟩ =
      .error "Unable to fetch real user balances. Please check wallet connection." ∧
    fetchUserBalances ⟨.error "rpc down", true, .ok 5, true, .ok 7⟩ ≠
      .ok { eth := 0, usdc := 5, cope := 7, totalUsd := 0 } :=
  ⟨rfl, fun h => nomatch h⟩

/-- Claim C5 (amended): the two token balance reads are independently
fault-tolerant, defaulting the failing token's balance to zero while the
other balances are still returned; a failure of the native-asset read
instead aborts fetchUserBalances with the wallet-connection error. -/
theorem fetchUserBalances_token_reads_lenient (e : ℚ) (m1 m2 m3 : String)
    (ua ca : Bool) (ur cr : Except String ℚ) :
    fetchUserBalances ⟨.ok e, true, .error m1, ca, cr⟩ =
      .ok { eth := e, usdc := 0, cope := lenientRead ca cr, totalUsd := 0 } ∧
    fetchUserBalances ⟨.ok e, ua, ur, true, .error m2⟩ =
      .ok { eth := e, usdc := lenientRead ua ur, cope := 0, totalUsd := 0 } ∧
    fetchUserBalances ⟨.error m3, ua, ur, ca, cr⟩ =
      .error "Unable to fetch real user balances. Please check wallet connection." :=
  ⟨rfl, rfl, rfl⟩

/-- Claim C8: the APR computed by fetchPoolData equals
fees24h * 365 / tvlUSD * 100 whenever both inputs are present and tvlUSD is
positive, and equals 0 when tvlUSD is 0 or not positive or either input is
missing; in particular fees24h 100 with tvlUSD 0 yields 0 and fees24h 100
with tvlUSD 1000 yields 3650. -/
theorem computeApr_spec (f t : ℚ) :
    computeApr (some f) (some t) = (if 0 < t then f * 365 / t * 100 else 0) ∧
    computeApr (some f) none = 0 ∧
    computeApr none (some t) = 0 ∧
    computeApr none none = 0 ∧
    computeApr (some 100) (some 0) = 0 ∧
    computeApr (some 100) (some 1000) = 3650 := by
  refine ⟨?_, rfl, rfl, rfl, by norm_num [computeApr], by norm_num [computeApr]⟩
  by_cases ht : 0 < t
  · by_cases hf : f = 0
    · subst hf; simp [computeApr, ht]
    · have ht0 : t ≠ 0 := ne_of_gt ht
      simp [computeApr, hf, ht0, ht]
  · have hcond : ¬(f ≠ 0 ∧ t ≠ 0 ∧ 0 < t) := by tauto
    simp [computeApr, hcond, ht]

/-- Claim C2 (amended): buildTransferCallData returns the fixed selector
followed by the left-zero-padded recipient without its 0x prefix and the
left-zero-padded hex of the scaled amount; whenever the recipient is a
standard 42-character address and the scaled amount is below 16 ^ 64 both
fields are exactly 64 hex digits and the total length is the constant 138.
Since padStart never truncates, a larger scaled amount lengthens the
output. -/
theorem buildTransferCallData_shape (recipient : String) (tokenAmount : Nat)
    (hrec : recipient.length = 42) (hamt : tokenAmount < 16 ^ 64) :
    buildTransferCallData recipient tokenAmount =
      "0xa9059cbb" ++ padStart (jsSlice recipient 2) 64 '0' ++
        padStart (hexString tokenAmount) 64 '0' ∧
    (padStart (jsSlice recipient 2) 64 '0').length = 64 ∧
    (padStart (hexString tokenAmount) 64 '0').length = 64 ∧
    (buildTransferCallData recipient tokenAmount).length = 138 := by
  have h1 : (jsSlice recipient 2).length = 40 := by rw [length_jsSlice, hrec]
  have h2 : (hexString tokenAmount).length ≤ 64 :=
    length_hexString_le tokenAmount 64 (by norm_num) hamt
  have e1 : (padStart (jsSlice recipient 2) 64 '0').length = 64 := by
    rw [length_padStart, h1]
    norm_num
  have e2 : (padStart (hexString tokenAmount) 64 '0').length = 64 := by
    rw [length_padStart]
    omega
  refine ⟨rfl, e1, e2, ?_⟩
  show ("0xa9059cbb" ++ padStart (jsSlice recipient 2) 64 '0' ++
    padStart (hexString tokenAmount) 64 '0').length = 138
  rw [String.length_append, String.length_append, e1, e2]
  rfl

/-- Claim C2 witness: a concrete 42-character recipient and a small scaled
amount produce exactly the padded shape with total length 138. -/
theorem buildTransferCallData_shape_witness :
    ("0x1234567890123456789012345678901234567890" : String).length = 42 ∧
    (255 : Nat) < 16 ^ 64 ∧
    (buildTransferCallData "0x1234567890123456789012345678901234567890" 255).length = 138 :=
  ⟨by decide, by norm_num,
    (buildTransferCallData_shape "0x1234567890123456789012345678901234567890" 255
      (by decide) (by norm_num)).2.2.2⟩

set_option maxRecDepth 8000 in
/-- Claim C2 counterexample: the total output length is not the same for
every input. A scaled amount of 16 ^ 64 (reachable in the source, for
example from the exact decimal string of 2 ^ 256 with decimals 0, which
parseFloat represents exactly) has 65 hex digits, which padStart does not
truncate, giving length 139 instead of 138. -/
theorem buildTransferCallData_length_counterexample :
    (buildTransferCallData "0x1234567890123456789012345678901234567890"
      (16 ^ 64)).length = 139 ∧
    (buildTransferCallData "0x1234567890123456789012345678901234567890"
      1).length = 138 := by
  constructor <;> decide

/-- Claim C1: when the initial send fails with a sponsorship-classified
message, exactly one unsponsored retry is attempted; it rebuilds the same
destination, call data and value and attaches the explicit gas-limit
override (21000 native, 100000 contract-call); the reported terminal
outcome is the retry's own hash on success or the retry's own error on
failure, never the original sponsorship error. -/
theorem sendSponsoredTransaction_sponsorship_fallback
    (scale : String → Nat → Nat) (w : String) (params : TokenTransferParams)
    (msg : String) (send2 : Except String String)
    (prev : SponsoredTransactionStatus)
    (hs : isSponsorshipError msg = true) :
    ((sendSponsoredTransaction scale (some w) params (.error msg) send2 prev).2.2.length = 2) ∧
    (((sendSponsoredTransaction scale (some w) params (.error msg) send2 prev).2.2.getD 1 default).toAddr =
      ((sendSponsoredTransaction scale (some w) params (.error msg) send2 prev).2.2.getD 0 default).toAddr) ∧
    (((sendSponsoredTransaction scale (some w) params (.error msg) send2 prev).2.2.getD 1 default).data =
      ((sendSponsoredTransaction scale (some w) params (.error msg) send2 prev).2.2.getD 0 default).data) ∧
    (((sendSponsoredTransaction scale (some w) params (.error msg) send2 prev).2.2.getD 1 default).value =
      ((sendSponsoredTransaction scale (some w) params (.error msg) send2 prev).2.2.getD 0 default).value) ∧
    (((sendSponsoredTransaction scale (some w) params (.error msg) send2 prev).2.2.getD 1 default).gasLimit =
      some (if jsTruthyStr params.tokenAddress then 100000 else 21000)) ∧
    ((sendSponsoredTransaction scale (some w) params (.error msg) send2 prev).2.1.isLoading = false) ∧
    ((sendSponsoredTransaction scale (some w) params (.error msg) send2 prev).2.1.isSponsored = false) ∧
    (∀ h2, send2 = .ok h2 →
      (sendSponsoredTransaction scale (some w) params (.error msg) send2 prev).1 = .ok () ∧
      (sendSponsoredTransaction scale (some w) params (.error msg) send2 prev).2.1.transactionHash = some h2 ∧
      (sendSponsoredTransaction scale (some w) params (.error msg) send2 prev).2.1.error = none) ∧
    (∀ m2, send2 = .error m2 →
      (sendSponsoredTransaction scale (some w) params (.error msg) send2 prev).1 =
        .error ("Transaction failed: " ++ m2) ∧
      (sendSponsoredTransaction scale (some w) params (.error msg) send2 prev).2.1.error = some m2) := by
  cases send2 with
  | ok h2 =>
    cases htok : jsTruthyStr params.tokenAddress <;>
      simp [sendSponsoredTransaction, hs, htok]
  | error m2 =>
    cases htok : jsTruthyStr params.tokenAddress <;>
      simp [sendSponsoredTransaction, hs, htok]

/-- Claim C1 witness: concrete native transfer whose initial send fails with
a paymaster message and whose retry also fails: the retry carries gas limit
21000 and the reported outcome is the retry's own error. -/
theorem sendSponsoredTransaction_sponsorship_fallback_witness :
    isSponsorshipError "paymaster rejected" = true ∧
    (sendSponsoredTransaction (fun _ _ => 7) (some "0xwallet") sampleParams
      (.error "paymaster rejected") (.error "insufficient funds") initialStatus).2.2.length = 2 ∧
    ((sendSponsoredTransaction (fun _ _ => 7) (some "0xwallet") sampleParams
      (.error "paymaster rejected") (.error "insufficient funds") initialStatus).2.2.getD 1 default).gasLimit = some 21000 ∧
    (sendSponsoredTransaction (fun _ _ => 7) (some "0xwallet") sampleParams
      (.error "paymaster rejected") (.error "insufficient funds") initialStatus).1 =
      .error ("Transaction failed: " ++ "insufficient funds") ∧
    (sendSponsoredTransaction (fun _ _ => 7) (some "0xwallet") sampleParams
      (.error "paymaster rejected") (.error "insufficient funds") initialStatus).2.1.error =
      some "insufficient funds" := by
  have hs : isSponsorshipError "paymaster rejected" = true := by decide
  have h := sendSponsoredTransaction_sponsorship_fallback (fun _ _ => 7) "0xwallet"
    sampleParams "paymaster rejected" (.error "insufficient funds") initialStatus hs
  refine ⟨hs, h.1, ?_, ?_, ?_⟩
  · have hg := h.2.2.2.2.1
    simpa [sampleParams, jsTruthyStr] using hg
  · exact (h.2.2.2.2.2.2.2.2 "insufficient funds" rfl).1
  · exact (h.2.2.2.2.2.2.2.2 "insufficient funds" rfl).2

/-- Claim C7: the retry path is taken exactly when the initial error message
contains one of the substrings sponsorship, paymaster or gas too low; a
non-matching error is recorded in status and surfaced immediately with no
retry send. -/
theorem sendSponsoredTransaction_retry_iff (scale : String → Nat → Nat)
    (w : String) (params : TokenTransferParams) (msg : String)
    (send2 : Except String String) (prev : SponsoredTransactionStatus) :
    (isSponsorshipError msg =
      (strIncludes msg "sponsorship" || strIncludes msg "paymaster" ||
        strIncludes msg "gas too low")) ∧
    ((sendSponsoredTransaction scale (some w) params (.error msg) send2 prev).2.2.length = 2 ↔
      isSponsorshipError msg = true) ∧
    (isSponsorshipError msg = false →
      (sendSponsoredTransaction scale (some w) params (.error msg) send2 prev).1 = .error msg ∧
      (sendSponsoredTransaction scale (some w) params (.error msg) send2 prev).2.1.error = some msg ∧
      (sendSponsoredTransaction scale (some w) params (.error msg) send2 prev).2.1.isLoading = false ∧
      (sendSponsoredTransaction scale (some w) params (.error msg) send2 prev).2.2.length = 1) := by
  refine ⟨rfl, ?_, ?_⟩
  · cases hs : isSponsorshipError msg <;>
      cases send2 <;> simp [sendSponsoredTransaction, hs]
  · intro hs
    cases send2 <;> simp [sendSponsoredTransaction, hs]

/-- Claim C7 witness: a concrete non-sponsorship error is surfaced
immediately, recorded in status, and only one send is attempted. -/
theorem sendSponsoredTransaction_retry_iff_witness :
    isSponsorshipError "user rejected" = false ∧
    (sendSponsoredTransaction (fun _ _ => 7) (some "0xwallet") sampleParams
      (.error "user rejected") (.ok "0xbbb") initialStatus).1 = .error "user rejected" ∧
    (sendSponsoredTransaction (fun _ _ => 7) (some "0xwallet") sampleParams
      (.error "user rejected") (.ok "0xbbb") initialStatus).2.1.error = some "user rejected" ∧
    (sendSponsoredTransaction (fun _ _ => 7) (some "0xwallet") sampleParams
      (.error "user rejected") (.ok "0xbbb") initialStatus).2.2.length = 1 := by
  have hs : isSponsorshipError "user rejected" = false := by decide
  have h := (sendSponsoredTransaction_retry_iff (fun _ _ => 7) "0xwallet" sampleParams
    "user rejected" (.ok "0xbbb") initialStatus).2.2 hs
  exact ⟨hs, h.1, h.2.1, h.2.2.2⟩

/-- Claim C6 counterexample: a failed non-sponsorship send that follows an
earlier successful send ends with isLoading false but with both terminal
fields set: the start-of-send update clears only error, so the stale hash
from the earlier success persists alongside the new error. -/
theorem status_terminal_fields_counterexample :
    ((sendSponsoredTransaction (fun _ _ => 0) (some "0xwallet") sampleParams
      (.error "boom") (.error "boom")
      ((sendSponsoredTransaction (fun _ _ => 0) (some "0xwallet") sampleParams
        (.ok "0xaaa") (.ok "0xaaa") initialStatus).2.1)).2.1.isLoading = false) ∧
    ((sendSponsoredTransaction (fun _ _ => 0) (some "0xwallet") sampleParams
      (.error "boom") (.error "boom")
      ((sendSponsoredTransaction (fun _ _ => 0) (some "0xwallet") sampleParams
        (.ok "0xaaa") (.ok "0xaaa") initialStatus).2.1)).2.1.transactionHash = some "0xaaa") ∧
    ((sendSponsoredTransaction (fun _ _ => 0) (some "0xwallet") sampleParams
      (.error "boom") (.error "boom")
      ((sendSponsoredTransaction (fun _ _ => 0) (some "0xwallet") sampleParams
        (.ok "0xaaa") (.ok "0xaaa") initialStatus).2.1)).2.1.error = some "boom") := by
  refine ⟨?_, ?_, ?_⟩ <;> decide

/-- Claim C6 (amended): for every send that starts from a status whose
transactionHash is unset (the initial or reset state), exactly one of the
two terminal fields is set when isLoading becomes false; a send starting
from a status carrying an earlier success hash can instead end with both
fields set. -/
theorem sendSponsoredTransaction_terminal_exclusive
    (scale : String → Nat → Nat) (w : String) (params : TokenTransferParams)
    (send1 send2 : Except String String) (prev : SponsoredTransactionStatus)
    (hprev : prev.transactionHash = none) :
    ((sendSponsoredTransaction scale (some w) params send1 send2 prev).2.1.isLoading = false) ∧
    ((sendSponsoredTransaction scale (some w) params send1 send2 prev).2.1.transactionHash.isSome =
      !(sendSponsoredTransaction scale (some w) params send1 send2 prev).2.1.error.isSome) := by
  cases send1 with
  | ok h1 => simp [sendSponsoredTransaction]
  | error m1 =>
    cases hs : isSponsorshipError m1
    · simp [sendSponsoredTransaction, hs, hprev]
    · cases send2 with
      | ok h2 => simp [sendSponsoredTransaction, hs]
      | error m2 => simp [sendSponsoredTransaction, hs, hprev]

/-- Claim C6 witness: from the initial status, a successful send terminates
with exactly one terminal field set. -/
theorem sendSponsoredTransaction_terminal_exclusive_witness :
    initialStatus.transactionHash = none ∧
    ((sendSponsoredTransaction (fun _ _ => 0) (some "0xwallet") sampleParams
      (.ok "0xccc") (.ok "0xccc") initialStatus).2.1.isLoading = false) ∧
    ((sendSponsoredTransaction (fun _ _ => 0) (some "0xwallet") sampleParams
      (.ok "0xccc") (.ok "0xccc") initialStatus).2.1.transactionHash.isSome =
      !(sendSponsoredTransaction (fun _ _ => 0) (some "0xwallet") sampleParams
        (.ok "0xccc") (.ok "0xccc") initialStatus).2.1.error.isSome) := by
  have h := sendSponsoredTransaction_terminal_exclusive (fun _ _ => 0) "0xwallet"
    sampleParams (.ok "0xccc") (.ok "0xccc") initialStatus rfl
  exact ⟨rfl, h.1, h.2⟩

/-- Claim C4: whenever the indexer fetch fails, at the HTTP level, at the
GraphQL level, or by returning no pool, fetchPoolData rejects with the
wrapped error, performs no price or balance fetch, and returns no partial
result. -/
theorem fetchPoolData_indexer_failure_aborts :
    (∀ (sg : SubgraphOutcome) (cg : CoinGeckoOutcome) (ethApi : Except String ℚ)
      (wallet : Option String) (env : BalanceEnv) (e : String),
      fetchUniswapPoolAnalytics sg = .error e →
      fetchPoolData sg cg ethApi wallet env =
        (.error ("Failed to fetch real pool data: " ++ e), [ExtCall.indexer])) ∧
    (∀ status body, ∃ e, fetchUniswapPoolAnalytics (.httpError status body) = .error e) ∧
    (∀ errs, ∃ e, fetchUniswapPoolAnalytics (.graphqlErrors errs) = .error e) ∧
    (∃ e, fetchUniswapPoolAnalytics .noPool = .error e) := by
  refine ⟨?_, fun status body => ⟨_, rfl⟩, fun errs => ⟨_, rfl⟩, ⟨_, rfl⟩⟩
  intro sg cg ethApi wallet env e he
  unfold fetchPoolData
  rw [he]

/-- Claim C4 witness: a missing pool aborts fetchPoolData with the wrapped
error and only the indexer call performed, even with succeeding price and
balance oracles and a wallet address present. -/
theorem fetchPoolData_indexer_failure_aborts_witness :
    fetchUniswapPoolAnalytics .noPool =
      .error "Pool not found in subgraph - check if pool exists on Sepolia" ∧
    fetchPoolData .noPool (.ok (some 1)) (.ok 2000) (some "0xwallet")
        ⟨.ok 1, true, .ok 100, true, .ok 50⟩ =
      (.error ("Failed to fetch real pool data: " ++
        "Pool not found in subgraph - check if pool exists on Sepolia"),
        [ExtCall.indexer]) := by
  refine ⟨rfl, ?_⟩
  exact fetchPoolData_indexer_failure_aborts.1 .noPool (.ok (some 1)) (.ok 2000)
    (some "0xwallet") ⟨.ok 1, true, .ok 100, true, .ok 50⟩ _ rfl

/-- Claim C9: for every set of successfully fetched balances and prices, the
total USD value fetchPoolData stores on the user balance equals
eth * ethUsdPrice + usdc + cope * usdcCopeRate. -/
theorem fetchPoolData_totalUsd (sg : SubgraphOutcome) (cg : CoinGeckoOutcome)
    (ethApi : Except String ℚ) (w : String) (env : BalanceEnv)
    (ua : AnalyticsData) (r p : ℚ) (b : UserBalance)
    (h1 : fetchUniswapPoolAnalytics sg = .ok ua)
    (h2 : fetchUsdcCopePrice cg = .ok r)
    (h3 : fetchEthUsdcPrice ethApi = .ok p)
    (h4 : fetchUserBalances env = .ok b) :
    ∃ pd, (fetchPoolData sg cg ethApi (some w) env).1 =
      .ok (pd, some { eth := b.eth, usdc := b.usdc, cope := b.cope,
                      totalUsd := b.eth * p + b.usdc + b.cope * r }) := by
  unfold fetchPoolData
  rw [h1, h2, h3]
  simp [h4]

/-- Claim C9 witness: balances eth 1, usdc 100, cope 50 with ETH price 2000
and a COPE USD price of one fifth (so a USDC/COPE rate of 5) yield a total
of 2350. -/
theorem fetchPoolData_totalUsd_witness :
    ∃ pd, (fetchPoolData (.ok ⟨some 1000, some 5000, some 20, none, none, []⟩)
      (.ok (some (1 / 5))) (.ok 2000) (some "0xwallet")
      ⟨.ok 1, true, .ok 100, true, .ok 50⟩).1 =
      .ok (pd, some { eth := 1, usdc := 100, cope := 50, totalUsd := 2350 }) := by
  have h2 : fetchUsdcCopePrice (.ok (some (1 / 5))) = .ok 5 := by
    norm_num [fetchUsdcCopePrice]
  obtain ⟨pd, hpd⟩ := fetchPoolData_totalUsd
    (.ok ⟨some 1000, some 5000, some 20, none, none, []⟩) (.ok (some (1 / 5)))
    (.ok 2000) "0xwallet" ⟨.ok 1, true, .ok 100, true, .ok 50⟩
    _ 5 2000 ⟨1, 100, 50, 0⟩ rfl h2 rfl rfl
  refine ⟨pd, ?_⟩
  rw [hpd]
  norm_num

end Convexus
